import Mathlib

/-!
Verification of the managed external-process invocation core of the
codex-review server (src/codex-review/src/index.ts, `callCodex`).

The embedding models the promise executor of `callCodex` as a small
event-driven state machine:

* the executor runs synchronously at launch (`initState`): it schedules the
  termination timer, installs the stdin error observer when the stdin handle
  exists, performs the guarded synchronous write/end of the prompt, and on
  the two early-return paths (stdin unavailable, synchronous write throw)
  rejects at once without installing the stdout/stderr/close/error handlers;
* every asynchronous occurrence afterwards (stdout data, stderr data, the
  close event, the spawn error event, a stdin stream error, the termination
  timer firing, the kill-escalation timer firing) is an `Event`, and `step`
  is the corresponding handler body translated from the source;
* promise settlement is modelled by the `settled` field: the first
  resolve/reject fills it and later resolve/reject calls leave it unchanged,
  exactly the one-shot semantics of a JS promise, while the other side
  effects of a late handler (clearing timers, appending to buffers, logging)
  still happen, as they do in the source.
-/

namespace CodexReview

/-- Failure taxonomy of the invocation core (spec section 7). -/
inductive FailureKind where
  | SpawnFailed
  | StreamUnavailable
  | StdinWriteFailed
  | Timeout
  | NonZeroExit
deriving DecidableEq, Repr

/-- Result of one invocation: the resolved stdout text or a typed failure. -/
inductive InvocationResult where
  | Success (stdoutText : String)
  | Failure (kind : FailureKind) (message : String)
deriving DecidableEq, Repr

/-- A JS number that is either an actual integer or NaN (`none`). The
timeout budget computed by `parseInt` has this type. -/
abbrev JSNum := Option Int

/-- String interpolation of a `JSNum`, as a JS template literal renders it. -/
def jsNumRepr : JSNum → String
  | none => "NaN"
  | some n => toString n

/-- String interpolation of the `close` exit code, which is `null` when the
child was terminated by a signal. -/
def exitCodeRepr : Option Int → String
  | none => "null"
  | some c => toString c

/-- Fixed grace period before SIGKILL escalation (source line 151). -/
def SIGKILL_GRACE_MS : Nat := 2000

/-- Whitespace skipped by JS `parseInt`: the ECMAScript WhiteSpace and
LineTerminator productions — tab, LF, vertical tab, form feed, CR, space,
NBSP, Ogham space mark, the en-quad through hair-space range, line
separator, paragraph separator, narrow no-break space, medium mathematical
space, ideographic space, and ZWNBSP. -/
def isJsWhitespace (c : Char) : Bool :=
  c == '\t' || c == '\n' || c.val == 11 || c.val == 12 || c == '\r' ||
  c == ' ' || c.val == 0x00A0 || c.val == 0x1680 ||
  (0x2000 ≤ c.val && c.val ≤ 0x200A) || c.val == 0x2028 ||
  c.val == 0x2029 || c.val == 0x202F || c.val == 0x205F ||
  c.val == 0x3000 || c.val == 0xFEFF

/-- Strip the optional leading sign recognised by JS `parseInt`, returning
the sign and the remaining characters. -/
def stripSign (l : List Char) : Int × List Char :=
  match l with
  | '+' :: r => (1, r)
  | '-' :: r => (-1, r)
  | r => (1, r)

/-- JS `parseInt(s, 10)`: skip leading whitespace, read an optional sign,
then the longest run of decimal digits; `none` (NaN) when no digit follows. -/
def parseIntJS (s : String) : JSNum :=
  let signed := stripSign (s.toList.dropWhile isJsWhitespace)
  let digits := signed.2.takeWhile Char.isDigit
  if digits.isEmpty then none
  else some (signed.1 * (digits.foldl (fun n c => n * 10 + (c.toNat - 48)) 0 : Nat))

/-- The timeout budget of one invocation: source line 150,
`parseInt(process.env.CODEX_TIMEOUT_MS || "300000", 10)`; the empty string
is falsy in JS, so unset and empty both fall back to `"300000"`. -/
def TIMEOUT_MS (env : Option String) : JSNum :=
  parseIntJS (match env with
    | none => "300000"
    | some s => if s = "" then "300000" else s)

/-- Argument vector built by `callCodex` (source lines 158-165). -/
def callCodexArgs (model : String) (reasoning_effort : String) : List String :=
  ["exec", "--full-auto", "-m", model, "-c",
   "model_reasoning_effort=" ++ reasoning_effort]

/-- The argument vector of the spawned child as a function of all three
`callCodex` parameters; the source builds it from `model` and
`reasoning_effort` only, so `prompt` is intentionally unused. -/
def callCodexArgv (_prompt : String) (model : String)
    (reasoning_effort : String) : List String :=
  callCodexArgs model reasoning_effort

/-- State of one in-flight invocation of `callCodex`. -/
structure CodexState where
  /-- The settled value of the promise, `none` while pending. -/
  settled : Option InvocationResult
  /-- Accumulated stdout text (source line 211). -/
  stdout : String
  /-- Accumulated stderr text (source line 212). -/
  stderr : String
  /-- The pending termination timer with its delay, `none` when cleared. -/
  timeoutTimer : Option JSNum
  /-- The pending kill-escalation timer with its delay, `none` when cleared. -/
  killTimer : Option Nat
  /-- Whether `codex.kill("SIGTERM")` has been issued. -/
  sigtermSent : Bool
  /-- Whether `codex.kill("SIGKILL")` has been issued. -/
  sigkillSent : Bool
  /-- Whether the stdin error observer was installed (source line 188). -/
  stdinErrorHandler : Bool
  /-- Whether the stdout/stderr/close/error handlers were installed
  (source lines 214-241; skipped by the two early returns). -/
  outputHandlers : Bool
  /-- The text written to the stdin stream of the child, if the write ran. -/
  stdinWritten : Option String
  /-- The stderr text logged on a successful exit (source line 229). -/
  stderrLogged : Option String
deriving DecidableEq, Repr

/-- Settle the promise: the first resolve/reject wins, a later one leaves
the already-settled value in place. -/
def settle (r : InvocationResult) (s : CodexState) : CodexState :=
  { s with settled := some (s.settled.getD r) }

/-- Asynchronous occurrences observed by the executor after launch. -/
inductive Event where
  | stdoutData (chunk : String)
  | stderrData (chunk : String)
  | close (code : Option Int)
  | procError (msg : String)
  | stdinError (msg : String)
  | timeoutFire
  | killFire
deriving DecidableEq, Repr

/-- One event-handler dispatch, translated from the handler bodies of
`callCodex` (source lines 175-241). Handlers that were never installed do
not run; a cleared timer does not fire. -/
def step (s : CodexState) (e : Event) : CodexState :=
  match e with
  | .stdoutData c =>
    if s.outputHandlers then { s with stdout := s.stdout ++ c } else s
  | .stderrData c =>
    if s.outputHandlers then { s with stderr := s.stderr ++ c } else s
  | .close code =>
    if s.outputHandlers then
      let s1 := { s with timeoutTimer := none, killTimer := none }
      if code = some 0 then
        settle (.Success s1.stdout)
          { s1 with
            stderrLogged := if s1.stderr = "" then s1.stderrLogged
                            else some s1.stderr }
      else
        settle (.Failure .NonZeroExit
          ("Codex exited with code " ++ exitCodeRepr code ++ ":\n" ++ s1.stderr)) s1
    else s
  | .procError m =>
    if s.outputHandlers then
      settle (.Failure .SpawnFailed ("Failed to spawn codex: " ++ m))
        { s with timeoutTimer := none, killTimer := none }
    else s
  | .stdinError m =>
    if s.stdinErrorHandler then
      settle (.Failure .StdinWriteFailed
          ("Failed to write to codex stdin: " ++ m))
        { s with timeoutTimer := none, killTimer := none }
    else s
  | .timeoutFire =>
    match s.timeoutTimer with
    | none => s
    | some d =>
      settle (.Failure .Timeout
          ("Codex process timed out after " ++ jsNumRepr d ++ "ms"))
        { s with
          timeoutTimer := none
          sigtermSent := true
          killTimer := some SIGKILL_GRACE_MS }
  | .killFire =>
    match s.killTimer with
    | none => s
    | some _ => { s with killTimer := none, sigkillSent := true }

/-- The synchronous part of the promise executor (source lines 147-209):
schedule the termination timer, then handle stdin. `stdinAvailable` models
whether `codex.stdin` is non-null; `writeThrow = some m` models the
synchronous write/end throwing with message `m`. -/
def initState (tms : JSNum) (prompt : String) (stdinAvailable : Bool)
    (writeThrow : Option String) : CodexState :=
  let s0 : CodexState :=
    { settled := none
      stdout := ""
      stderr := ""
      timeoutTimer := some tms
      killTimer := none
      sigtermSent := false
      sigkillSent := false
      stdinErrorHandler := false
      outputHandlers := false
      stdinWritten := none
      stderrLogged := none }
  if stdinAvailable then
    let s1 := { s0 with stdinErrorHandler := true }
    match writeThrow with
    | none => { s1 with stdinWritten := some prompt, outputHandlers := true }
    | some m =>
      settle (.Failure .StdinWriteFailed ("Failed to write prompt: " ++ m))
        { s1 with timeoutTimer := none, killTimer := none }
  else
    settle (.Failure .StreamUnavailable "Codex stdin is not available")
      { s0 with timeoutTimer := none }

/-- Run a sequence of events from a state. -/
def run (s : CodexState) (evs : List Event) : CodexState :=
  evs.foldl step s

/-- Whether an event is a stream-data event. -/
def isDataEvent : Event → Bool
  | .stdoutData _ => true
  | .stderrData _ => true
  | _ => false

/-- Concatenation, in arrival order, of the stdout chunks of an event list. -/
def stdoutConcat : List Event → String
  | [] => ""
  | .stdoutData c :: rest => c ++ stdoutConcat rest
  | _ :: rest => stdoutConcat rest

/-- Concatenation, in arrival order, of the stderr chunks of an event list. -/
def stderrConcat : List Event → String
  | [] => ""
  | .stderrData c :: rest => c ++ stderrConcat rest
  | _ :: rest => stderrConcat rest

/-- Whether the first character of a string is a decimal digit (vocabulary
for the claim about malformed `CODEX_TIMEOUT_MS` values). -/
def startsWithDigit (s : String) : Bool :=
  match s.toList with
  | [] => false
  | c :: _ => c.isDigit

/-- Whether, after skipping leading JS whitespace and an optional sign,
the string begins with a decimal digit: exactly the condition under which
JS `parseInt(s, 10)` yields a number rather than NaN. -/
def digitAfterSignAndSpace (s : String) : Bool :=
  match (stripSign (s.toList.dropWhile isJsWhitespace)).2 with
  | [] => false
  | c :: _ => c.isDigit

/-! Helper lemmas about `settle`, `step` and `run`. -/

theorem settle_settled_isSome (r : InvocationResult) (s : CodexState) :
    ((settle r s).settled).isSome := by
  simp [settle]

theorem settle_settled_of_none (r : InvocationResult) (s : CodexState)
    (h : s.settled = none) : (settle r s).settled = some r := by
  simp [settle, h]

theorem settle_settled_of_some (r x : InvocationResult) (s : CodexState)
    (h : s.settled = some x) : (settle r s).settled = some x := by
  simp [settle, h]

theorem run_nil (s : CodexState) : run s [] = s := rfl

theorem run_cons (s : CodexState) (e : Event) (evs : List Event) :
    run s (e :: evs) = run (step s e) evs := rfl

theorem run_append (s : CodexState) (l1 l2 : List Event) :
    run s (l1 ++ l2) = run (run s l1) l2 := by
  simp [run, List.foldl_append]

/-- No handler re-resolves the promise: a settled value survives any event. -/
theorem step_settled_mono (s : CodexState) (e : Event) (r : InvocationResult)
    (h : s.settled = some r) : (step s e).settled = some r := by
  cases e <;> simp only [step] <;> (repeat' split) <;> simp [settle, h]

/-- A settled value survives any event sequence. -/
theorem run_settled_mono (evs : List Event) (s : CodexState)
    (r : InvocationResult) (h : s.settled = some r) :
    (run s evs).settled = some r := by
  induction evs generalizing s with
  | nil => exact h
  | cons e evs ih => rw [run_cons]; exact ih _ (step_settled_mono s e r h)

/-- No event installs or removes the stdout/stderr/close/error handlers. -/
theorem step_outputHandlers (s : CodexState) (e : Event) :
    (step s e).outputHandlers = s.outputHandlers := by
  cases e <;> simp only [step] <;> (repeat' split) <;> simp [settle]

/-- A close event settles the promise whenever the handlers are installed. -/
theorem step_close_isSome (s : CodexState) (c : Option Int)
    (h : s.outputHandlers = true) :
    ((step s (Event.close c)).settled).isSome := by
  simp only [step, h, if_true]
  split <;> simp [settle]

/-- An event sequence containing a close event leaves the promise settled,
provided the close handler was installed. -/
theorem run_close_mem_isSome (c : Option Int) (evs : List Event) :
    ∀ s : CodexState, s.outputHandlers = true → Event.close c ∈ evs →
      ((run s evs).settled).isSome := by
  induction evs with
  | nil => intro s _ h; cases h
  | cons e evs ih =>
    intro s hs hmem
    rw [run_cons]
    rcases List.mem_cons.mp hmem with he | hmem2
    · rw [← he]
      have h1 := step_close_isSome s c hs
      obtain ⟨r, hr⟩ := Option.isSome_iff_exists.mp h1
      rw [run_settled_mono evs _ r hr]
      rfl
    · exact ih _ (by rw [step_outputHandlers]; exact hs) hmem2

/-- The kill-escalation timer slot after one event: unchanged, cleared, or
newly filled with the fixed grace delay. -/
theorem step_killTimer_cases (s : CodexState) (e : Event) :
    (step s e).killTimer = s.killTimer ∨ (step s e).killTimer = none ∨
    (step s e).killTimer = some SIGKILL_GRACE_MS := by
  cases e <;> simp only [step] <;> (repeat' split) <;> simp [settle]

/-- The termination timer slot after one event: unchanged or cleared,
never refilled. -/
theorem step_timeoutTimer_cases (s : CodexState) (e : Event) :
    (step s e).timeoutTimer = s.timeoutTimer ∨
    (step s e).timeoutTimer = none := by
  cases e <;> simp only [step] <;> (repeat' split) <;> simp [settle]

/-- Data events only accumulate: running a list of stream-data events
appends the chunks, in arrival order, to the respective buffers and leaves
every other field unchanged. -/
theorem run_data_events (evs : List Event) :
    ∀ s : CodexState, (∀ e ∈ evs, isDataEvent e = true) →
      s.outputHandlers = true →
      run s evs = { s with stdout := s.stdout ++ stdoutConcat evs,
                           stderr := s.stderr ++ stderrConcat evs } := by
  induction evs with
  | nil =>
    intro s _ _
    simp [run_nil, stdoutConcat, stderrConcat]
  | cons e evs ih =>
    intro s hall hs
    have he := hall e (List.mem_cons_self e evs)
    have hrest : ∀ e2 ∈ evs, isDataEvent e2 = true :=
      fun e2 h2 => hall e2 (List.mem_cons_of_mem e h2)
    cases e with
    | stdoutData c =>
      rw [run_cons]
      have hstep : step s (.stdoutData c) = { s with stdout := s.stdout ++ c } := by
        simp [step, hs]
      rw [hstep, ih { s with stdout := s.stdout ++ c } hrest hs]
      simp [stdoutConcat, stderrConcat, String.append_assoc]
    | stderrData c =>
      rw [run_cons]
      have hstep : step s (.stderrData c) = { s with stderr := s.stderr ++ c } := by
        simp [step, hs]
      rw [hstep, ih { s with stderr := s.stderr ++ c } hrest hs]
      simp [stdoutConcat, stderrConcat, String.append_assoc]
    | close code => simp [isDataEvent] at he
    | procError m => simp [isDataEvent] at he
    | stdinError m => simp [isDataEvent] at he
    | timeoutFire => simp [isDataEvent] at he
    | killFire => simp [isDataEvent] at he

/-! The claims. -/

/-- C1, counterexample: the claim that the spawned argument vector never
contains the payload text as an element fails for a payload that equals one
of the fixed flags; for the payload `"exec"` the argument vector contains
the payload text. -/
theorem callCodexArgv_contains_flaglike_payload :
    ("exec" ∈ callCodexArgv "exec" "gpt-5-codex" "high") ∧
    callCodexArgv "exec" "gpt-5-codex" "high" =
      ["exec", "--full-auto", "-m", "gpt-5-codex", "-c",
       "model_reasoning_effort=high"] := by
  decide

/-- C1, amended: the argument vector is exactly the fixed flags plus the
model and the effort configuration flag, it is identical for any two
payloads (it is not a function of the payload at all), the payload crosses
only via the stdin write, and the vector contains the payload as an element
only when the payload coincides with one of its six fixed elements. -/
theorem callCodexArgv_fixed_and_payload_free
    (p q model effort : String) (tms : JSNum) :
    callCodexArgv p model effort =
      ["exec", "--full-auto", "-m", model, "-c",
       "model_reasoning_effort=" ++ effort] ∧
    callCodexArgv p model effort = callCodexArgv q model effort ∧
    (initState tms p true none).stdinWritten = some p ∧
    (p ∉ (["exec", "--full-auto", "-m", model, "-c",
           "model_reasoning_effort=" ++ effort] : List String) →
      p ∉ callCodexArgv p model effort) := by
  refine ⟨rfl, rfl, rfl, fun h => ?_⟩
  simpa [callCodexArgv, callCodexArgs] using h

/-- C1, witness: a realistic payload is not an element of the spawned
argument vector. -/
theorem callCodexArgv_fixed_and_payload_free_witness :
    ("please review my code" ∉
      callCodexArgv "please review my code" "gpt-5-codex" "high") :=
  (callCodexArgv_fixed_and_payload_free "please review my code" "-rf"
    "gpt-5-codex" "high" (some 300000)).2.2.2 (by decide)

/-- C2: the invocation settles exactly once. A settled result survives any
single later event and any later event sequence unchanged, and an event
sequence containing a close event leaves the normally-launched invocation
settled. -/
theorem callCodex_exactly_once :
    (∀ (s : CodexState) (e : Event) (r : InvocationResult),
        s.settled = some r → (step s e).settled = some r) ∧
    (∀ (s : CodexState) (evs : List Event) (r : InvocationResult),
        s.settled = some r → (run s evs).settled = some r) ∧
    (∀ (tms : JSNum) (p : String) (evs : List Event) (c : Option Int),
        Event.close c ∈ evs →
        ((run (initState tms p true none) evs).settled).isSome) := by
  refine ⟨step_settled_mono, fun s evs r h => run_settled_mono evs s r h,
    fun tms p evs c h => run_close_mem_isSome c evs _ rfl h⟩

/-- C2, witness: a concrete run containing a close event is settled. -/
theorem callCodex_exactly_once_witness :
    ((run (initState (some 300000) "hi" true none)
        [Event.close (some 0)]).settled).isSome :=
  callCodex_exactly_once.2.2 (some 300000) "hi" [Event.close (some 0)]
    (some 0) (by decide)

/-- C3: when the termination timer fires while the invocation is pending,
the child is sent SIGTERM, a kill-escalation timer with the fixed 2000 ms
grace delay is scheduled, and the invocation resolves at once with the
Timeout failure naming the budget, without SIGKILL having been sent; the
escalation fires only while its timer is pending and then sends SIGKILL
without changing the settled result; the budget is 300000 ms when the
environment variable is unset. -/
theorem timeout_escalation (s : CodexState) (d : JSNum)
    (h0 : s.settled = none) (h1 : s.timeoutTimer = some d) :
    (step s .timeoutFire).sigtermSent = true ∧
    (step s .timeoutFire).timeoutTimer = none ∧
    (step s .timeoutFire).killTimer = some SIGKILL_GRACE_MS ∧
    (step s .timeoutFire).settled =
      some (.Failure .Timeout
        ("Codex process timed out after " ++ jsNumRepr d ++ "ms")) ∧
    (step s .timeoutFire).sigkillSent = s.sigkillSent ∧
    (step (step s .timeoutFire) .killFire).settled =
      (step s .timeoutFire).settled ∧
    (step (step s .timeoutFire) .killFire).sigkillSent = true ∧
    (∀ s2 : CodexState, s2.killTimer = none → step s2 .killFire = s2) ∧
    TIMEOUT_MS none = some 300000 ∧ SIGKILL_GRACE_MS = 2000 := by
  have hstep : step s .timeoutFire =
      settle (.Failure .Timeout
        ("Codex process timed out after " ++ jsNumRepr d ++ "ms"))
        { s with timeoutTimer := none, sigtermSent := true,
                 killTimer := some SIGKILL_GRACE_MS } := by
    simp [step, h1]
  refine ⟨?_, ?_, ?_, ?_, ?_, ?_, ?_, ?_, by decide, rfl⟩
  · rw [hstep]; simp [settle]
  · rw [hstep]; simp [settle]
  · rw [hstep]; simp [settle]
  · rw [hstep]; simp [settle, h0]
  · rw [hstep]; simp [settle]
  · rw [hstep]; simp [step, settle]
  · rw [hstep]; simp [step, settle]
  · intro s2 h2; simp [step, h2]

/-- C3, witness: the timeout path from a concrete freshly-launched state. -/
theorem timeout_escalation_witness :
    (step (initState (some 300000) "p" true none) .timeoutFire).settled =
      some (.Failure .Timeout
        ("Codex process timed out after " ++ jsNumRepr (some 300000) ++ "ms")) :=
  (timeout_escalation (initState (some 300000) "p" true none) (some 300000)
    rfl rfl).2.2.2.1

/-- C4: when the child exits naturally with code 0 before the termination
timer fires, the invocation resolves Success carrying exactly the stdout
chunks concatenated in arrival order; the stderr buffer is not part of the
result and is only surfaced to the log, and both timers are cancelled. -/
theorem natural_success_roundtrip (tms : JSNum) (p : String)
    (evs : List Event) (hdata : ∀ e ∈ evs, isDataEvent e = true) :
    ((run (initState tms p true none) (evs ++ [Event.close (some 0)])).settled =
        some (.Success (stdoutConcat evs))) ∧
    ((run (initState tms p true none) (evs ++ [Event.close (some 0)])).stderrLogged =
        if stderrConcat evs = "" then none else some (stderrConcat evs)) ∧
    ((run (initState tms p true none) (evs ++ [Event.close (some 0)])).timeoutTimer
        = none) ∧
    ((run (initState tms p true none) (evs ++ [Event.close (some 0)])).killTimer
        = none) := by
  rw [run_append, run_data_events evs (initState tms p true none) hdata rfl]
  refine ⟨?_, ?_, ?_, ?_⟩ <;>
    simp [initState, run, step, settle, String.empty_append]

/-- C4, witness: a child that writes "ok" to stdout and exits 0 yields
Success with stdout text "ok". -/
theorem natural_success_roundtrip_witness :
    (run (initState (some 300000) "p" true none)
        ([Event.stdoutData "ok"] ++ [Event.close (some 0)])).settled =
      some (.Success (stdoutConcat [Event.stdoutData "ok"])) :=
  (natural_success_roundtrip (some 300000) "p" [Event.stdoutData "ok"]
    (by decide)).1

/-- C5: when the child exits naturally with a non-zero exit code, the
invocation resolves a NonZeroExit failure whose message carries the exit
code and the accumulated stderr buffer. -/
theorem nonzero_exit_diagnostics (tms : JSNum) (p : String)
    (evs : List Event) (c : Int)
    (hdata : ∀ e ∈ evs, isDataEvent e = true) (hc : c ≠ 0) :
    (run (initState tms p true none) (evs ++ [Event.close (some c)])).settled =
      some (.Failure .NonZeroExit
        ("Codex exited with code " ++ toString c ++ ":\n" ++ stderrConcat evs)) := by
  rw [run_append, run_data_events evs (initState tms p true none) hdata rfl]
  simp [initState, run, step, settle, exitCodeRepr, hc, String.empty_append]

/-- C5, witness: a child that writes "bad input" to stderr and exits 2
yields a NonZeroExit failure whose message carries 2 and "bad input". -/
theorem nonzero_exit_diagnostics_witness :
    (run (initState (some 300000) "p" true none)
        ([Event.stderrData "bad input"] ++ [Event.close (some 2)])).settled =
      some (.Failure .NonZeroExit
        ("Codex exited with code " ++ toString (2 : Int) ++ ":\n" ++
          stderrConcat [Event.stderrData "bad input"])) :=
  nonzero_exit_diagnostics (some 300000) "p" [Event.stderrData "bad input"] 2
    (by decide) (by decide)

/-- C6: a failure of the stdin stream is observed and converted, never
propagated: the error observer is installed whenever the stdin handle
exists (before the write), an error event on a pending invocation resolves
it with a StdinWriteFailed failure carrying the underlying message and
cancels both timers, and a synchronous write throw is caught by the guard
and resolved the same way. -/
theorem stdin_failure_caught (s : CodexState) (m : String)
    (h0 : s.settled = none) (h1 : s.stdinErrorHandler = true) :
    ((step s (.stdinError m)).settled =
        some (.Failure .StdinWriteFailed
          ("Failed to write to codex stdin: " ++ m))) ∧
    (step s (.stdinError m)).timeoutTimer = none ∧
    (step s (.stdinError m)).killTimer = none ∧
    (∀ (tms : JSNum) (p wm : String),
        (initState tms p true (some wm)).settled =
          some (.Failure .StdinWriteFailed ("Failed to write prompt: " ++ wm)) ∧
        (initState tms p true (some wm)).timeoutTimer = none ∧
        (initState tms p true (some wm)).killTimer = none) ∧
    (∀ (tms : JSNum) (p : String) (w : Option String),
        (initState tms p true w).stdinErrorHandler = true) := by
  refine ⟨?_, ?_, ?_, ?_, ?_⟩
  · simp [step, h1, settle, h0]
  · simp [step, h1, settle]
  · simp [step, h1, settle]
  · intro tms p wm
    refine ⟨?_, rfl, rfl⟩
    simp [initState, settle]
  · intro tms p w
    cases w <;> rfl

/-- C6, witness: a concrete stdin error event on a freshly-launched
invocation resolves it with the StdinWriteFailed failure. -/
theorem stdin_failure_caught_witness :
    (step (initState (some 300000) "p" true none) (.stdinError "EPIPE")).settled =
      some (.Failure .StdinWriteFailed
        ("Failed to write to codex stdin: " ++ "EPIPE")) :=
  (stdin_failure_caught (initState (some 300000) "p" true none) "EPIPE"
    rfl rfl).1

/-- C7: when the stdin handle is unavailable at launch, the invocation
resolves immediately with the StreamUnavailable failure and performs no
further work: no timer is left pending, no signal has been or will be
issued, no payload was written, no stream handler was installed, and every
later event leaves the state completely unchanged. -/
theorem stdin_unavailable_fast_path (tms : JSNum) (p : String)
    (w : Option String) :
    (initState tms p false w).settled =
      some (.Failure .StreamUnavailable "Codex stdin is not available") ∧
    (initState tms p false w).timeoutTimer = none ∧
    (initState tms p false w).killTimer = none ∧
    (initState tms p false w).sigtermSent = false ∧
    (initState tms p false w).sigkillSent = false ∧
    (initState tms p false w).outputHandlers = false ∧
    (initState tms p false w).stdinErrorHandler = false ∧
    (initState tms p false w).stdinWritten = none ∧
    (∀ e : Event, step (initState tms p false w) e = initState tms p false w) := by
  refine ⟨by simp [initState, settle], rfl, rfl, rfl, rfl, rfl, rfl, rfl, ?_⟩
  intro e
  cases e <;> simp [initState, settle, step]

/-- C8, counterexample: on the timeout resolution path the kill-escalation
timer is not cancelled at resolution; after the termination timer fires on
a freshly-launched invocation, the invocation is settled while the
escalation timer is still pending with its 2000 ms delay, and it then
fires after resolution, issuing SIGKILL. -/
theorem kill_timer_pending_after_timeout_resolution :
    ((step (initState (some 300000) "p" true none) .timeoutFire).settled =
        some (.Failure .Timeout "Codex process timed out after 300000ms")) ∧
    (step (initState (some 300000) "p" true none) .timeoutFire).killTimer =
      some 2000 ∧
    (step (initState (some 300000) "p" true none) .timeoutFire).sigkillSent =
      false ∧
    (step (step (initState (some 300000) "p" true none) .timeoutFire)
        .killFire).sigkillSent = true ∧
    (step (step (initState (some 300000) "p" true none) .timeoutFire)
        .killFire).settled =
      (step (initState (some 300000) "p" true none) .timeoutFire).settled := by
  decide

/-- C8, amended: at most one termination timer and at most one
kill-escalation timer exist per invocation (single slots, the escalation
slot only ever filled with the fixed grace delay and the termination slot
never refilled), and every resolution path except the timeout path cancels
both timers at resolution; the timeout path clears the termination timer
but deliberately leaves the kill-escalation timer pending with the 2000 ms
grace delay. -/
theorem timers_cancelled_on_resolution :
    (∀ (s : CodexState) (e : Event), s.settled = none →
        ((step s e).settled).isSome →
        (e ≠ .timeoutFire →
          (step s e).timeoutTimer = none ∧ (step s e).killTimer = none) ∧
        (e = .timeoutFire →
          (step s e).timeoutTimer = none ∧
          (step s e).killTimer = some SIGKILL_GRACE_MS)) ∧
    (∀ (s : CodexState) (e : Event) (d : Nat),
        (step s e).killTimer = some d →
        d = SIGKILL_GRACE_MS ∨ s.killTimer = some d) ∧
    (∀ (s : CodexState) (e : Event),
        (step s e).timeoutTimer = s.timeoutTimer ∨
        (step s e).timeoutTimer = none) ∧
    (∀ (tms : JSNum) (p : String) (w : Option String),
        (initState tms p false w).timeoutTimer = none ∧
        (initState tms p false w).killTimer = none) ∧
    (∀ (tms : JSNum) (p m : String),
        (initState tms p true (some m)).timeoutTimer = none ∧
        (initState tms p true (some m)).killTimer = none) := by
  refine ⟨?_, ?_, step_timeoutTimer_cases,
    fun tms p w => ⟨rfl, rfl⟩, fun tms p m => ⟨rfl, rfl⟩⟩
  · intro s e h0 h1
    refine ⟨fun hne => ?_, fun he => ?_⟩
    · cases e with
      | timeoutFire => exact absurd rfl hne
      | stdoutData c =>
        exfalso; revert h1; simp only [step]; split <;> simp [h0]
      | stderrData c =>
        exfalso; revert h1; simp only [step]; split <;> simp [h0]
      | killFire =>
        exfalso; revert h1; simp only [step]; split <;> simp [h0]
      | close code =>
        revert h1; simp only [step]; (repeat' split) <;> simp [settle, h0]
      | procError m =>
        revert h1; simp only [step]; split <;> simp [settle, h0]
      | stdinError m =>
        revert h1; simp only [step]; split <;> simp [settle, h0]
    · subst he
      revert h1; simp only [step]
      split <;> simp [settle, h0]
  · intro s e d h
    rcases step_killTimer_cases s e with h2 | h2 | h2
    · exact Or.inr (h2 ▸ h)
    · rw [h2] at h; exact absurd h (by simp)
    · rw [h2] at h
      exact Or.inl (Option.some_injective _ h).symm

/-- C8, witness: on a natural-exit resolution both timers are cancelled at
resolution. -/
theorem timers_cancelled_on_resolution_witness :
    ((step (initState (some 300000) "p" true none)
        (.close (some 0))).timeoutTimer = none) ∧
    ((step (initState (some 300000) "p" true none)
        (.close (some 0))).killTimer = none) :=
  (timers_cancelled_on_resolution.1 (initState (some 300000) "p" true none)
    (.close (some 0)) rfl (by decide)).1 (by decide)

/-- C9: a close event with a null exit code never resolves Success: it is
handled by the non-zero branch and yields a NonZeroExit failure whose
message carries the text null together with the accumulated stderr
buffer. -/
theorem null_exit_code_is_failure (s : CodexState)
    (h0 : s.settled = none) (h1 : s.outputHandlers = true) :
    ((step s (.close none)).settled =
        some (.Failure .NonZeroExit
          ("Codex exited with code null:\n" ++ s.stderr))) ∧
    (∀ t : String, (step s (.close none)).settled ≠ some (.Success t)) := by
  have h : (step s (.close none)).settled =
      some (.Failure .NonZeroExit
        ("Codex exited with code null:\n" ++ s.stderr)) := by
    simp [step, h1, settle, h0, exitCodeRepr]
  exact ⟨h, fun t => by simp [h]⟩

/-- C9, witness: a signal-terminated child on a freshly-launched invocation
with accumulated stderr yields the failure naming null and that stderr. -/
theorem null_exit_code_is_failure_witness :
    (step (run (initState (some 300000) "p" true none)
        [Event.stderrData "boom"]) (.close none)).settled =
      some (.Failure .NonZeroExit
        ("Codex exited with code null:\n" ++
          (run (initState (some 300000) "p" true none)
            [Event.stderrData "boom"]).stderr)) :=
  (null_exit_code_is_failure
    (run (initState (some 300000) "p" true none) [Event.stderrData "boom"])
    (by decide) (by decide)).1

/-- C10, counterexample: the claim that any CODEX_TIMEOUT_MS value not
starting with a digit makes parseInt yield NaN fails for the value "+5":
it does not start with a digit, yet the computed budget is 5 and the
termination timer is scheduled with delay 5, not NaN. -/
theorem timeout_env_counterexample :
    startsWithDigit "+5" = false ∧
    TIMEOUT_MS (some "+5") = some 5 ∧
    (initState (TIMEOUT_MS (some "+5")) "p" true none).timeoutTimer =
      some (some 5) := by
  decide

/-- C10, amended: the 300000 ms default applies exactly when the variable
is unset or empty; when it is set to a non-empty string that, after
skipping leading JS whitespace and an optional sign, does not begin with a
decimal digit, parseInt yields NaN, the termination timer is scheduled
with a NaN delay, and the documented default is not restored; a string
with only a leading JS whitespace character before the digits, such as a
vertical tab, still parses. -/
theorem timeout_env_malformed_gives_nan :
    TIMEOUT_MS none = some 300000 ∧
    TIMEOUT_MS (some "") = some 300000 ∧
    (∀ s : String, s ≠ "" → digitAfterSignAndSpace s = false →
        TIMEOUT_MS (some s) = none) ∧
    (initState (TIMEOUT_MS (some "abc")) "p" true none).timeoutTimer =
      some none ∧
    TIMEOUT_MS (some "abc") ≠ some 300000 ∧
    TIMEOUT_MS (some "\x0B5") = some 5 := by
  refine ⟨by decide, by decide, ?_, by decide, by decide, by decide⟩
  intro s hs h
  have hrest : ((stripSign (s.toList.dropWhile isJsWhitespace)).2).takeWhile
      Char.isDigit = [] := by
    revert h
    unfold digitAfterSignAndSpace
    cases (stripSign (s.toList.dropWhile isJsWhitespace)).2 with
    | nil => intro _; rfl
    | cons c r =>
      intro h
      simp only [] at h
      simp [List.takeWhile_cons, h]
  simp only [TIMEOUT_MS]
  rw [if_neg hs]
  simp only [parseIntJS]
  rw [hrest]
  simp

/-- C10, witness: the value "abc" is malformed, so the budget is NaN
rather than the documented default. -/
theorem timeout_env_malformed_gives_nan_witness :
    TIMEOUT_MS (some "abc") = none :=
  timeout_env_malformed_gives_nan.2.2.1 "abc" (by decide) (by decide)

end CodexReview
